import Mathlib

/-!
Shallow embedding of the SmartBank transfer ledger and fraud pipeline
(app/complete_main.py, app/fraud_detection.py, app/models.py).

Modelling conventions:
* Python floats (balances, amounts, limits) are modelled as rationals.
* Timestamps are seconds (Int) since an epoch taken to fall on a Monday
  midnight, so hour-of-day is (t / 3600) % 24 and weekday is (t / 86400) % 7.
* The database session is a record of the three relevant tables; a commit is
  modelled by producing the next visible table state.
* Queries with .first() return the first list entry matching the filter,
  matching SQLite row order for these tables.
-/

namespace SmartBank

/-- Account row (models.py, class Account). -/
structure Account where
  id : Nat
  accountNumber : String
  userId : Nat
  balance : ℚ
  isActive : Bool
  dailyLimit : ℚ
  deriving Repr, DecidableEq

/-- TransactionType enum (models.py). -/
inductive TransactionType where
  | transfer
  | deposit
  | withdrawal
  deriving Repr, DecidableEq

/-- Transaction row (models.py, class Transaction). -/
structure Transaction where
  transactionType : TransactionType
  fromAccountId : Option Nat
  toAccountId : Option Nat
  amount : ℚ
  balanceAfter : Option ℚ
  description : Option String
  isFlagged : Bool
  flagReason : Option String
  timestamp : Int
  deriving Repr, DecidableEq

/-- AuditLog row (models.py, class AuditLog). -/
structure AuditLog where
  userId : Nat
  action : String
  details : Option String
  timestamp : Int
  deriving Repr, DecidableEq

/-- The three tables the transfer ledger touches. -/
structure DB where
  accounts : List Account
  transactions : List Transaction
  auditLogs : List AuditLog
  deriving Repr, DecidableEq

/-- Filter used to resolve the source account: account_number == n AND
user_id == uid (complete_main.py lines 315-318). -/
def srcPred (n : String) (uid : Nat) : Account → Bool :=
  fun a => a.accountNumber == n && a.userId == uid

/-- Filter used to resolve the destination account: account_number == n only
(complete_main.py lines 322-324). -/
def dstPred (n : String) : Account → Bool :=
  fun a => a.accountNumber == n

/-- db.query(Account).filter(number == n, user_id == uid).first() -/
def DB.findOwnedAccount (db : DB) (n : String) (uid : Nat) : Option Account :=
  db.accounts.find? (srcPred n uid)

/-- db.query(Account).filter(number == n).first() -/
def DB.findAccount (db : DB) (n : String) : Option Account :=
  db.accounts.find? (dstPred n)

/-- Count of transactions from the given account with amount > 10000 in the
trailing one-hour window (complete_main.py lines 174-179; the same query at
fraud_detection.py lines 187-192). -/
def recentLargeCount (db : DB) (now : Int) (accId : Nat) : Nat :=
  (db.transactions.filter (fun t =>
    t.fromAccountId == some accId
      && decide (now - 3600 ≤ t.timestamp)
      && decide ((10000 : ℚ) < t.amount))).length

/-- Rule-based fraud check (complete_main.py, check_fraud, lines 168-187).
The Python literal 0.8 denotes the decimal 4/5 here. -/
def check_fraud (now : Int) (amount : ℚ) (account : Account) (db : DB) :
    Bool × String :=
  if account.dailyLimit < amount then
    (true, "Exceeds daily limit of ₹" ++ toString account.dailyLimit)
  else if 3 ≤ recentLargeCount db now account.id then
    (true, "Multiple large transactions in last hour")
  else if account.balance * (4 / 5) < amount ∧ (50000 : ℚ) < amount then
    (true, "Large withdrawal >80% of balance")
  else
    (false, "")

/-- The HTTPException raised by the endpoint: status code plus detail. -/
structure HTTPError where
  statusCode : Nat
  detail : String
  deriving Repr, DecidableEq

/-- TransferRequest schema (complete_main.py lines 80-84). Pydantic rejects
amount <= 0 before the endpoint body runs, so callers of transfer always pass
amount > 0; theorems state that as a hypothesis where it matters. -/
structure TransferRequest where
  fromAccountNumber : String
  toAccountNumber : String
  amount : ℚ
  description : Option String
  deriving Repr, DecidableEq

/-- In-place mutation of the balance of the object returned by a .first()
query: updates the first entry matching the filter, leaving the rest alone.
SQLAlchemy's identity map guarantees two queries resolving the same row yield
the same Python object, which this first-match update reproduces: a second
update through a filter matching the same entry compounds with the first. -/
def updateFirstBalance : List Account → (Account → Bool) → (ℚ → ℚ) → List Account
  | [], _, _ => []
  | a :: rest, p, f =>
      if p a then { a with balance := f a.balance } :: rest
      else a :: updateFirstBalance rest p f

/-- Balance of the first account matching a filter (0 if none), used to state
balance properties. -/
def balOf (l : List Account) (p : Account → Bool) : ℚ :=
  ((l.find? p).map Account.balance).getD 0

/-- Result of a successful transfer: the persisted Transaction plus the two
database states made visible by the two commits the endpoint performs —
committedMain after db.commit() at line 349 (balances + transaction row) and
committedAudit after the commit inside create_audit_log (line 192). -/
structure TransferOutcome where
  txn : Transaction
  committedMain : DB
  committedAudit : DB
  deriving Repr, DecidableEq

/-- The two balance mutations of complete_main.py lines 335-336: debit the
object resolved by the source filter, then credit the object resolved by the
destination filter (the same object when both filters resolve the same row). -/
def mutatedAccounts (currentUserId : Nat) (req : TransferRequest)
    (l : List Account) : List Account :=
  updateFirstBalance
    (updateFirstBalance l (srcPred req.fromAccountNumber currentUserId)
      (fun b => b - req.amount))
    (dstPred req.toAccountNumber) (fun b => b + req.amount)

/-- Lines 332-356 of complete_main.py: the part of the endpoint body reached
once both accounts are resolved and the funds check has passed. It performs the
fraud check, the balance mutations, and the two commits (db.commit() at line
349, then create_audit_log's commit). -/
def transferSuccess (fraudCheck : ℚ → Account → DB → Bool × String)
    (now : Int) (currentUserId : Nat) (req : TransferRequest) (db : DB)
    (fromAcc toAcc : Account) : TransferOutcome :=
  let fraud := fraudCheck req.amount fromAcc db
  let accounts2 := mutatedAccounts currentUserId req db.accounts
  let txn : Transaction := {
    transactionType := .transfer
    fromAccountId := some fromAcc.id
    toAccountId := some toAcc.id
    amount := req.amount
    balanceAfter :=
      (accounts2.find? (srcPred req.fromAccountNumber currentUserId)).map
        Account.balance
    description := req.description
    isFlagged := fraud.1
    flagReason := if fraud.1 then some fraud.2 else none
    timestamp := now }
  let committedMain : DB :=
    { db with accounts := accounts2, transactions := db.transactions ++ [txn] }
  let auditEntry : AuditLog := {
    userId := currentUserId
    action := "TRANSFER"
    details := some ("₹" ++ toString req.amount ++ " from "
      ++ req.fromAccountNumber ++ " to " ++ req.toAccountNumber)
    timestamp := now }
  let committedAudit : DB :=
    { committedMain with auditLogs := committedMain.auditLogs ++ [auditEntry] }
  { txn := txn, committedMain := committedMain, committedAudit := committedAudit }

/-- The transfer endpoint body (complete_main.py, transfer, lines 308-357),
with the fraud check abstracted as a parameter; the deployed endpoint plugs in
check_fraud (see transfer below). -/
def transferWithFraud (fraudCheck : ℚ → Account → DB → Bool × String)
    (now : Int) (currentUserId : Nat) (req : TransferRequest) (db : DB) :
    Except HTTPError TransferOutcome :=
  match db.findOwnedAccount req.fromAccountNumber currentUserId with
  | none => .error ⟨404, "Source account not found or inactive"⟩
  | some fromAcc =>
    if !fromAcc.isActive then
      .error ⟨404, "Source account not found or inactive"⟩
    else
      match db.findAccount req.toAccountNumber with
      | none => .error ⟨404, "Destination account not found or inactive"⟩
      | some toAcc =>
        if !toAcc.isActive then
          .error ⟨404, "Destination account not found or inactive"⟩
        else if fromAcc.balance < req.amount then
          .error ⟨400, "Insufficient funds"⟩
        else
          .ok (transferSuccess fraudCheck now currentUserId req db fromAcc toAcc)

/-- The deployed transfer endpoint: transferWithFraud specialised to the
rule-based check_fraud, exactly as complete_main.py line 332 calls it. -/
def transfer (now : Int) (currentUserId : Nat) (req : TransferRequest) (db : DB) :
    Except HTTPError TransferOutcome :=
  transferWithFraud (check_fraud now) now currentUserId req db

/-- The database state visible after the request finishes: unchanged on any
error (every raise happens before any mutation), the post-audit state on
success. -/
def transferFinalDB (now : Int) (currentUserId : Nat) (req : TransferRequest)
    (db : DB) : DB :=
  match transfer now currentUserId req db with
  | .error _ => db
  | .ok s => s.committedAudit

/-! ### fraud_detection.py: the IsolationForest-backed detector -/

/-- Hour of day, 0-23 (datetime .hour for a timestamp in seconds). -/
def hourOf (t : Int) : Int := (t / 3600) % 24

/-- Day of week, 0-6 (datetime .weekday for an epoch on a Monday midnight). -/
def weekdayOf (t : Int) : Int := (t / 86400) % 7

/-- State of the detector (fraud_detection.py, class FraudDetector). The
fitted sklearn model is represented by the training matrix model.fit was last
called with; none means fit was never called, the state in which
model.predict raises NotFittedError. -/
structure FraudDetector where
  fitted : Option (List (List ℚ))
  is_trained : Bool
  deriving Repr, DecidableEq

/-- FraudDetector.__init__: a fresh, unfitted model. -/
def FraudDetector.initial : FraudDetector := { fitted := none, is_trained := false }

/-- The 7-dimensional feature vector (fraud_detection.py, extract_features,
lines 27-75). -/
def extract_features (now : Int) (amount : ℚ) (account : Account) (db : DB) :
    List ℚ :=
  let recentTransactions := db.transactions.filter (fun t =>
    t.fromAccountId == some account.id
      && decide (now - 30 * 86400 ≤ t.timestamp))
  let feature_amount := amount
  let feature_balance_ratio :=
    if 0 < account.balance then amount / account.balance else 0
  let avg_amount :=
    if recentTransactions.isEmpty then 0
    else (recentTransactions.map Transaction.amount).sum
      / (recentTransactions.length : ℚ)
  let feature_avg_diff := amount - avg_amount
  let feature_frequency : ℚ :=
    ((db.transactions.filter (fun t =>
      t.fromAccountId == some account.id
        && decide (now - 3600 ≤ t.timestamp))).length : ℚ)
  let feature_time : ℚ := (hourOf now : ℚ)
  let feature_day : ℚ := (weekdayOf now : ℚ)
  let feature_limit_ratio := amount / account.dailyLimit
  [feature_amount, feature_balance_ratio, feature_avg_diff, feature_frequency,
    feature_time, feature_day, feature_limit_ratio]

/-- One row of the training matrix reconstructed from a historical transaction
(fraud_detection.py, lines 96-106). -/
def trainingRow (account : Account) (t : Transaction) : List ℚ :=
  [t.amount,
   if 0 < account.balance then t.amount / account.balance else 0,
   t.amount,
   1,
   (hourOf t.timestamp : ℚ),
   (weekdayOf t.timestamp : ℚ),
   t.amount / account.dailyLimit]

/-- The training matrix built from historical data: for every account, up to
100 of its outgoing transactions in query order (fraud_detection.py,
lines 87-106; the query has no order_by, so SQLite returns row order). -/
def buildTrainingData (db : DB) : List (List ℚ) :=
  db.accounts.flatMap (fun account =>
    ((db.transactions.filter (fun t =>
        t.fromAccountId == some account.id)).take 100).map (trainingRow account))

/-- fraud_detection.py, _generate_synthetic_data: 100 vectors drawn uniformly
from fixed "normal" ranges. The np.random draws are modelled by a fixed
representative vector inside those ranges (amount in [100,10000], balance
ratio in [0.01,0.3], ...); only the batch size and the fact of the fallback
matter to the properties proved here. -/
def syntheticTrainingData : List (List ℚ) :=
  List.replicate 100 [5000, 3 / 20, 0, 1, 12, 3, 3 / 10]

/-- fraud_detection.py, train_on_historical_data (lines 77-117): with no
accounts it returns at once without fitting; otherwise it fits either the
historical matrix or, when that has fewer than 10 rows, the synthetic batch. -/
def FraudDetector.train_on_historical_data (det : FraudDetector) (db : DB) :
    FraudDetector :=
  if db.accounts.isEmpty then det
  else
    let training_data := buildTrainingData db
    let data :=
      if training_data.length < 10 then syntheticTrainingData else training_data
    { fitted := some data, is_trained := true }

/-- fraud_detection.py, FraudDetector.predict (lines 137-169). The
IsolationForest decision is abstracted by scoreFn: given the fitted training
matrix and a feature vector it returns the anomaly score and whether the
prediction is -1; the properties proved below hold for every scoreFn. The
.error case models sklearn raising NotFittedError when model.predict is
reached with an unfitted model. -/
def FraudDetector.predict (scoreFn : List (List ℚ) → List ℚ → ℚ × Bool)
    (det : FraudDetector) (now : Int) (amount : ℚ) (account : Account)
    (db : DB) : Except String (FraudDetector × Bool × String × ℚ) :=
  let det1 := if !det.is_trained then det.train_on_historical_data db else det
  let features := extract_features now amount account db
  match det1.fitted with
  | none => .error "NotFittedError"
  | some trainData =>
    let scored := scoreFn trainData features
    let anomaly_score := scored.1
    let is_fraud := scored.2
    let reason :=
      if is_fraud then
        if account.dailyLimit < amount then
          "ML detected anomaly: Amount exceeds daily limit (Score: "
            ++ toString anomaly_score ++ ")"
        else if account.balance * (4 / 5) < amount then
          "ML detected anomaly: Large withdrawal detected (Score: "
            ++ toString anomaly_score ++ ")"
        else
          "ML detected anomaly: Unusual transaction pattern (Score: "
            ++ toString anomaly_score ++ ")"
      else
        "Transaction appears normal (Score: " ++ toString anomaly_score ++ ")"
    .ok (det1, is_fraud, reason, anomaly_score)

/-- fraud_detection.py, check_fraud_ml (lines 176-206). The call to the global
detector's predict is abstracted as predictFn so the fail-open behaviour can
be stated for every possible predictor outcome; .error models the predictor
raising, which the try/except at lines 198-204 swallows. -/
def check_fraud_ml (predictFn : ℚ → Account → DB → Except String (Bool × String × ℚ))
    (now : Int) (amount : ℚ) (account : Account) (db : DB) : Bool × String :=
  if account.dailyLimit < amount then
    (true, "Exceeds daily limit of ₹" ++ toString account.dailyLimit)
  else if 3 ≤ recentLargeCount db now account.id then
    (true, "Multiple large transactions in last hour")
  else
    match predictFn amount account db with
    | .ok r => if r.1 then (true, r.2.1) else (false, "Transaction approved")
    | .error _ => (false, "Transaction approved")

/-! ### Concrete instances used to evaluate the model on specific inputs -/

/-- Account A: owned by user 1, balance 200000, daily limit 100000. -/
def accA : Account :=
  { id := 1, accountNumber := "A", userId := 1, balance := 200000,
    isActive := true, dailyLimit := 100000 }

/-- Account B: owned by user 2, balance 1000. -/
def accB : Account :=
  { id := 2, accountNumber := "B", userId := 2, balance := 1000,
    isActive := true, dailyLimit := 100000 }

/-- Account A owned by a different user (user 2). -/
def accANotOwned : Account := { accA with userId := 2 }

/-- Account A, deactivated. -/
def accAInactive : Account := { accA with isActive := false }

/-- An account not stored in any database, as an argument for the detector. -/
def accFree : Account :=
  { id := 9, accountNumber := "Z", userId := 9, balance := 1000,
    isActive := true, dailyLimit := 100000 }

def dbMain : DB := { accounts := [accA, accB], transactions := [], auditLogs := [] }

def dbAbsent : DB := { accounts := [accB], transactions := [], auditLogs := [] }

def dbNotOwner : DB := { accounts := [accANotOwned, accB], transactions := [], auditLogs := [] }

def dbInactive : DB := { accounts := [accAInactive, accB], transactions := [], auditLogs := [] }

def dbSelf : DB := { accounts := [accA], transactions := [], auditLogs := [] }

def dbEmpty : DB := { accounts := [], transactions := [], auditLogs := [] }

/-- A small transfer from A to B (passes every check, unflagged). -/
def reqSmall : TransferRequest :=
  { fromAccountNumber := "A", toAccountNumber := "B", amount := 2000,
    description := none }

/-- A transfer above A's daily limit but within its balance. -/
def reqFlag : TransferRequest :=
  { fromAccountNumber := "A", toAccountNumber := "B", amount := 150000,
    description := none }

/-- A transfer above A's balance. -/
def reqBig : TransferRequest :=
  { fromAccountNumber := "A", toAccountNumber := "B", amount := 300000,
    description := none }

/-- A transfer with the same source and destination account number. -/
def reqSelf : TransferRequest :=
  { fromAccountNumber := "A", toAccountNumber := "A", amount := 50000,
    description := none }

/-- The outcome of the small transfer, for stating concrete facts. -/
def outcomeSmall : TransferOutcome :=
  transferSuccess (check_fraud 0) 0 1 reqSmall dbMain accA accB

/-! ### Infrastructure lemmas -/

lemma srcPred_balance (n : String) (uid : Nat) (a : Account) (x : ℚ) :
    srcPred n uid { a with balance := x } = srcPred n uid a := rfl

lemma dstPred_balance (n : String) (a : Account) (x : ℚ) :
    dstPred n { a with balance := x } = dstPred n a := rfl

lemma balOf_cons_pos {p : Account → Bool} {x : Account} (l : List Account)
    (h : p x = true) : balOf (x :: l) p = x.balance := by
  simp [balOf, List.find?_cons_of_pos _ h]

lemma balOf_cons_neg {p : Account → Bool} {x : Account} (l : List Account)
    (h : ¬ p x = true) : balOf (x :: l) p = balOf l p := by
  simp [balOf, List.find?_cons_of_neg _ h]

/-- Updating through a filter that ignores balances moves the filter's first
match pointwise. -/
lemma find?_updateFirstBalance_self (p : Account → Bool)
    (hp : ∀ a x, p { a with balance := x } = p a) (f : ℚ → ℚ) :
    ∀ l : List Account,
      (updateFirstBalance l p f).find? p
        = (l.find? p).map (fun a => { a with balance := f a.balance })
  | [] => rfl
  | a :: rest => by
      by_cases h : p a
      · rw [updateFirstBalance, if_pos h,
          List.find?_cons_of_pos _ ((hp a (f a.balance)).trans h),
          List.find?_cons_of_pos _ h, Option.map_some']
      · rw [updateFirstBalance, if_neg h, List.find?_cons_of_neg _ h,
          List.find?_cons_of_neg _ h, find?_updateFirstBalance_self p hp f rest]

lemma balOf_updateFirstBalance_self {p : Account → Bool} {l : List Account}
    {b : Account} (hp : ∀ a x, p { a with balance := x } = p a) (f : ℚ → ℚ)
    (hb : l.find? p = some b) :
    balOf (updateFirstBalance l p f) p = f b.balance := by
  simp [balOf, find?_updateFirstBalance_self p hp f l, hb]

/-- Debiting the first p-match then crediting the first q-match preserves the
sum of the two filters' balances, whether or not they resolve the same entry. -/
lemma balOf_sub_add (p q : Account → Bool)
    (hp : ∀ a x, p { a with balance := x } = p a)
    (hq : ∀ a x, q { a with balance := x } = q a) (amt : ℚ) :
    ∀ l : List Account, (l.find? p).isSome → (l.find? q).isSome →
      balOf (updateFirstBalance (updateFirstBalance l p (fun b => b - amt)) q
          (fun b => b + amt)) p
        + balOf (updateFirstBalance (updateFirstBalance l p (fun b => b - amt)) q
          (fun b => b + amt)) q
        = balOf l p + balOf l q := by
  intro l
  induction l with
  | nil => intro h _; simp [List.find?] at h
  | cons a rest ih =>
    intro hps hqs
    by_cases hpa : p a
    · rw [updateFirstBalance, if_pos hpa]
      by_cases hqa : q a
      · rw [updateFirstBalance, if_pos ((hq a (a.balance - amt)).trans hqa)]
        rw [balOf_cons_pos _ ((hp _ _).trans hpa), balOf_cons_pos _ ((hq _ _).trans hqa),
          balOf_cons_pos _ hpa, balOf_cons_pos _ hqa]
        simp
      · rw [updateFirstBalance,
          if_neg (by rw [hq a (a.balance - amt)]; exact hqa)]
        have hqrest : (rest.find? q).isSome := by
          rwa [List.find?_cons_of_neg _ hqa] at hqs
        obtain ⟨bq, hbq⟩ := Option.isSome_iff_exists.mp hqrest
        rw [balOf_cons_pos _ ((hp _ _).trans hpa),
          balOf_cons_neg _ (by rw [hq a (a.balance - amt)]; exact hqa),
          balOf_cons_pos _ hpa, balOf_cons_neg _ hqa,
          balOf_updateFirstBalance_self hq _ hbq]
        simp [balOf, hbq]
    · rw [updateFirstBalance, if_neg hpa]
      by_cases hqa : q a
      · rw [updateFirstBalance, if_pos hqa]
        have hprest : (rest.find? p).isSome := by
          rwa [List.find?_cons_of_neg _ hpa] at hps
        obtain ⟨bp, hbp⟩ := Option.isSome_iff_exists.mp hprest
        have hfp : (updateFirstBalance rest p (fun b => b - amt)).find? p
            = some { bp with balance := bp.balance - amt } := by
          rw [find?_updateFirstBalance_self p hp _ rest, hbp, Option.map_some']
        rw [balOf_cons_neg _ (by rw [hp a (a.balance + amt)]; exact hpa),
          balOf_cons_pos _ ((hq _ _).trans hqa),
          balOf_cons_neg _ hpa, balOf_cons_pos _ hqa]
        simp [balOf, hfp, hbp]
      · rw [updateFirstBalance, if_neg hqa]
        have hprest : (rest.find? p).isSome := by
          rwa [List.find?_cons_of_neg _ hpa] at hps
        have hqrest : (rest.find? q).isSome := by
          rwa [List.find?_cons_of_neg _ hqa] at hqs
        rw [balOf_cons_neg _ hpa, balOf_cons_neg _ hqa,
          balOf_cons_neg _ hpa, balOf_cons_neg _ hqa]
        exact ih hprest hqrest

/-- A first-match balance update keeps all balances non-negative provided the
updated value is non-negative. -/
lemma nonneg_updateFirstBalance (p : Account → Bool) (f : ℚ → ℚ) :
    ∀ l : List Account, (∀ a ∈ l, 0 ≤ a.balance) →
      (∀ a, l.find? p = some a → 0 ≤ f a.balance) →
      ∀ b ∈ updateFirstBalance l p f, 0 ≤ b.balance
  | [], _, _, b, hb => by simp [updateFirstBalance] at hb
  | a :: rest, h0, hf, b, hb => by
      by_cases hpa : p a
      · rw [updateFirstBalance, if_pos hpa] at hb
        rcases List.mem_cons.mp hb with hhead | htail
        · subst hhead
          exact hf a (List.find?_cons_of_pos _ hpa)
        · exact h0 b (List.mem_cons_of_mem _ htail)
      · rw [updateFirstBalance, if_neg hpa] at hb
        rcases List.mem_cons.mp hb with hhead | htail
        · subst hhead; exact h0 b (List.mem_cons_self b rest)
        · exact nonneg_updateFirstBalance p f rest
            (fun x hx => h0 x (List.mem_cons_of_mem _ hx))
            (fun x hx => hf x (by rw [List.find?_cons_of_neg _ hpa]; exact hx))
            b htail

lemma srcPred_eq_true_iff {n : String} {uid : Nat} {a : Account} :
    srcPred n uid a = true ↔ a.accountNumber = n ∧ a.userId = uid := by
  simp [srcPred]

lemma dstPred_eq_true_iff {n : String} {a : Account} :
    dstPred n a = true ↔ a.accountNumber = n := by
  simp [dstPred]

/-- With unique account numbers, the destination filter resolves the same row
as the source filter when the two numbers coincide. -/
lemma find?_dstPred_of_srcPred (n : String) (uid : Nat) :
    ∀ l : List Account, (l.map Account.accountNumber).Nodup →
      ∀ a, l.find? (srcPred n uid) = some a → l.find? (dstPred n) = some a
  | [], _, a, h => by simp [List.find?] at h
  | x :: rest, hnd, a, h => by
      by_cases hx : srcPred n uid x
      · rw [List.find?_cons_of_pos _ hx] at h
        rw [List.find?_cons_of_pos _
          (dstPred_eq_true_iff.mpr (srcPred_eq_true_iff.mp hx).1)]
        exact h
      · rw [List.find?_cons_of_neg _ hx] at h
        by_cases hdx : dstPred n x
        · exfalso
          have han : a.accountNumber = n :=
            (srcPred_eq_true_iff.mp (List.find?_some h)).1
          have hxn : x.accountNumber = n := dstPred_eq_true_iff.mp hdx
          have hmem : x.accountNumber ∈ rest.map Account.accountNumber := by
            rw [hxn, ← han]
            exact List.mem_map_of_mem _ (List.mem_of_find?_eq_some h)
          rw [List.map_cons, List.nodup_cons] at hnd
          exact hnd.1 hmem
        · rw [List.find?_cons_of_neg _ hdx]
          rw [List.map_cons, List.nodup_cons] at hnd
          exact find?_dstPred_of_srcPred n uid rest hnd.2 a h

/-- With unique account numbers, debiting and then crediting the same account
number cancels and the accounts table is unchanged. -/
lemma mutated_cancel (n : String) (uid : Nat) (amt : ℚ) :
    ∀ l : List Account, (l.map Account.accountNumber).Nodup →
      ∀ a, l.find? (srcPred n uid) = some a →
      updateFirstBalance (updateFirstBalance l (srcPred n uid) (fun b => b - amt))
        (dstPred n) (fun b => b + amt) = l
  | [], _, a, h => by simp [List.find?] at h
  | x :: rest, hnd, a, h => by
      by_cases hx : srcPred n uid x
      · rw [updateFirstBalance, if_pos hx, updateFirstBalance,
          if_pos ((dstPred_balance n x (x.balance - amt)).trans
            (dstPred_eq_true_iff.mpr (srcPred_eq_true_iff.mp hx).1))]
        congr 1
        simp
      · rw [updateFirstBalance, if_neg hx]
        rw [List.find?_cons_of_neg _ hx] at h
        by_cases hdx : dstPred n x
        · exfalso
          have han : a.accountNumber = n :=
            (srcPred_eq_true_iff.mp (List.find?_some h)).1
          have hxn : x.accountNumber = n := dstPred_eq_true_iff.mp hdx
          have hmem : x.accountNumber ∈ rest.map Account.accountNumber := by
            rw [hxn, ← han]
            exact List.mem_map_of_mem _ (List.mem_of_find?_eq_some h)
          rw [List.map_cons, List.nodup_cons] at hnd
          exact hnd.1 hmem
        · rw [updateFirstBalance, if_neg hdx]
          rw [List.map_cons, List.nodup_cons] at hnd
          rw [mutated_cancel n uid amt rest hnd.2 a h]

/-! ### Branch characterizations of the transfer endpoint -/

lemma transferWithFraud_ok (fc : ℚ → Account → DB → Bool × String)
    (now : Int) (uid : Nat) (req : TransferRequest) (db : DB)
    {fromAcc toAcc : Account}
    (hsrc : db.findOwnedAccount req.fromAccountNumber uid = some fromAcc)
    (hsa : fromAcc.isActive = true)
    (hdst : db.findAccount req.toAccountNumber = some toAcc)
    (hda : toAcc.isActive = true)
    (hfunds : ¬ fromAcc.balance < req.amount) :
    transferWithFraud fc now uid req db
      = .ok (transferSuccess fc now uid req db fromAcc toAcc) := by
  unfold transferWithFraud
  rw [hsrc, hdst]
  simp [hsa, hda, hfunds]

lemma transferWithFraud_source_none (fc : ℚ → Account → DB → Bool × String)
    (now : Int) (uid : Nat) (req : TransferRequest) (db : DB)
    (hsrc : db.findOwnedAccount req.fromAccountNumber uid = none) :
    transferWithFraud fc now uid req db
      = .error ⟨404, "Source account not found or inactive"⟩ := by
  unfold transferWithFraud
  rw [hsrc]

lemma transferWithFraud_source_inactive (fc : ℚ → Account → DB → Bool × String)
    (now : Int) (uid : Nat) (req : TransferRequest) (db : DB)
    {fromAcc : Account}
    (hsrc : db.findOwnedAccount req.fromAccountNumber uid = some fromAcc)
    (hsa : fromAcc.isActive = false) :
    transferWithFraud fc now uid req db
      = .error ⟨404, "Source account not found or inactive"⟩ := by
  unfold transferWithFraud
  rw [hsrc]
  simp [hsa]

lemma transferWithFraud_insufficient (fc : ℚ → Account → DB → Bool × String)
    (now : Int) (uid : Nat) (req : TransferRequest) (db : DB)
    {fromAcc toAcc : Account}
    (hsrc : db.findOwnedAccount req.fromAccountNumber uid = some fromAcc)
    (hsa : fromAcc.isActive = true)
    (hdst : db.findAccount req.toAccountNumber = some toAcc)
    (hda : toAcc.isActive = true)
    (hlt : fromAcc.balance < req.amount) :
    transferWithFraud fc now uid req db = .error ⟨400, "Insufficient funds"⟩ := by
  unfold transferWithFraud
  rw [hsrc, hdst]
  simp [hsa, hda, hlt]

lemma transferFinalDB_of_error {now : Int} {uid : Nat} {req : TransferRequest}
    {db : DB} {e : HTTPError} (h : transfer now uid req db = .error e) :
    transferFinalDB now uid req db = db := by
  unfold transferFinalDB
  rw [h]

/-- A successful transfer can only come from the all-checks-passed branch. -/
lemma transferWithFraud_ok_inversion (fc : ℚ → Account → DB → Bool × String)
    {now : Int} {uid : Nat} {req : TransferRequest} {db : DB}
    {s : TransferOutcome}
    (hok : transferWithFraud fc now uid req db = .ok s) :
    ∃ fromAcc toAcc,
      db.findOwnedAccount req.fromAccountNumber uid = some fromAcc
      ∧ fromAcc.isActive = true
      ∧ db.findAccount req.toAccountNumber = some toAcc
      ∧ toAcc.isActive = true
      ∧ ¬ fromAcc.balance < req.amount
      ∧ s = transferSuccess fc now uid req db fromAcc toAcc := by
  unfold transferWithFraud at hok
  split at hok
  · exact absurd hok (by simp)
  next fromAcc hsrc =>
    split at hok
    · exact absurd hok (by simp)
    next hsa =>
      split at hok
      · exact absurd hok (by simp)
      next toAcc hdst =>
        split at hok
        · exact absurd hok (by simp)
        next hda =>
          split at hok
          · exact absurd hok (by simp)
          next hlt =>
            exact ⟨fromAcc, toAcc, hsrc,
              by simpa using hsa, hdst, by simpa using hda, hlt,
              ((Except.ok.injEq _ _).mp hok).symm⟩

/-! ### Reading off the components of a successful outcome -/

lemma transferSuccess_isFlagged (fc : ℚ → Account → DB → Bool × String)
    (now : Int) (uid : Nat) (req : TransferRequest) (db : DB)
    (fromAcc toAcc : Account) :
    (transferSuccess fc now uid req db fromAcc toAcc).txn.isFlagged
      = (fc req.amount fromAcc db).1 := rfl

lemma transferSuccess_flagReason (fc : ℚ → Account → DB → Bool × String)
    (now : Int) (uid : Nat) (req : TransferRequest) (db : DB)
    (fromAcc toAcc : Account) :
    (transferSuccess fc now uid req db fromAcc toAcc).txn.flagReason
      = (if (fc req.amount fromAcc db).1 then some (fc req.amount fromAcc db).2
         else none) := rfl

lemma transferSuccess_audit_accounts (fc : ℚ → Account → DB → Bool × String)
    (now : Int) (uid : Nat) (req : TransferRequest) (db : DB)
    (fromAcc toAcc : Account) :
    (transferSuccess fc now uid req db fromAcc toAcc).committedAudit.accounts
      = mutatedAccounts uid req db.accounts := rfl

/-! ### C1 -/

/-- C1: for every transfer that succeeds, the balance of the source filter's
account plus the balance of the destination filter's account after the
transfer equals their sum before the transfer (conservation of money). -/
theorem transfer_conservation (now : Int) (uid : Nat) (req : TransferRequest)
    (db : DB) (s : TransferOutcome)
    (hok : transfer now uid req db = .ok s) :
    balOf s.committedAudit.accounts (srcPred req.fromAccountNumber uid)
      + balOf s.committedAudit.accounts (dstPred req.toAccountNumber)
    = balOf db.accounts (srcPred req.fromAccountNumber uid)
      + balOf db.accounts (dstPred req.toAccountNumber) := by
  obtain ⟨fromAcc, toAcc, hsrc, hsa, hdst, hda, hfunds, hs⟩ :=
    transferWithFraud_ok_inversion _ hok
  subst hs
  rw [transferSuccess_audit_accounts]
  unfold mutatedAccounts
  exact balOf_sub_add _ _ (srcPred_balance req.fromAccountNumber uid)
    (dstPred_balance req.toAccountNumber) req.amount db.accounts
    (Option.isSome_iff_exists.mpr ⟨fromAcc, hsrc⟩)
    (Option.isSome_iff_exists.mpr ⟨toAcc, hdst⟩)

/-- Witness for C1: the successful 2000-unit transfer from A (200000) to
B (1000) conserves the 201000 total, with A left at 198000. -/
theorem transfer_conservation_witness :
    (balOf outcomeSmall.committedAudit.accounts (srcPred reqSmall.fromAccountNumber 1)
        + balOf outcomeSmall.committedAudit.accounts (dstPred reqSmall.toAccountNumber)
      = balOf dbMain.accounts (srcPred reqSmall.fromAccountNumber 1)
        + balOf dbMain.accounts (dstPred reqSmall.toAccountNumber))
    ∧ balOf outcomeSmall.committedAudit.accounts (srcPred reqSmall.fromAccountNumber 1)
        = 198000
    ∧ balOf dbMain.accounts (srcPred reqSmall.fromAccountNumber 1) = 200000 := by
  refine ⟨transfer_conservation 0 1 reqSmall dbMain outcomeSmall
    (transferWithFraud_ok (check_fraud 0) 0 1 reqSmall dbMain
      (by norm_num +decide [DB.findOwnedAccount, srcPred, dbMain, accA, accB, reqSmall])
      (by norm_num [accA])
      (by norm_num +decide [DB.findAccount, dstPred, dbMain, accA, accB, reqSmall])
      (by norm_num [accB])
      (by norm_num [accA, reqSmall])), ?_, ?_⟩
  · norm_num +decide [outcomeSmall, transferSuccess, mutatedAccounts, updateFirstBalance,
      srcPred, dstPred, balOf, dbMain, accA, accB, reqSmall]
  · norm_num +decide [srcPred, balOf, dbMain, accA, accB, reqSmall]

/-! ### C2 -/

/-- C2: once both accounts resolve, a request exceeding the source balance
fails with the 400 Insufficient funds error and leaves the database unchanged;
the funds check never rejects when balance >= amount; and a successful
transfer started from a database of non-negative balances (with the
schema-enforced amount > 0) leaves every balance non-negative. -/
theorem transfer_insufficient_funds (now : Int) (uid : Nat)
    (req : TransferRequest) (db : DB) (fromAcc toAcc : Account)
    (hsrc : db.findOwnedAccount req.fromAccountNumber uid = some fromAcc)
    (hsa : fromAcc.isActive = true)
    (hdst : db.findAccount req.toAccountNumber = some toAcc)
    (hda : toAcc.isActive = true) :
    (fromAcc.balance < req.amount →
      transfer now uid req db = .error ⟨400, "Insufficient funds"⟩
      ∧ transferFinalDB now uid req db = db)
    ∧ (¬ fromAcc.balance < req.amount → ∃ s, transfer now uid req db = .ok s)
    ∧ (∀ s, transfer now uid req db = .ok s → 0 < req.amount →
        (∀ a ∈ db.accounts, 0 ≤ a.balance) →
        ∀ a ∈ s.committedAudit.accounts, 0 ≤ a.balance) := by
  refine ⟨?_, ?_, ?_⟩
  · intro hlt
    have he := transferWithFraud_insufficient (check_fraud now) now uid req db
      hsrc hsa hdst hda hlt
    exact ⟨he, transferFinalDB_of_error he⟩
  · intro hge
    exact ⟨_, transferWithFraud_ok (check_fraud now) now uid req db
      hsrc hsa hdst hda hge⟩
  · intro s hok hamt h0
    obtain ⟨fa, ta, hsrc2, _, _, _, hfunds2, hs⟩ :=
      transferWithFraud_ok_inversion _ hok
    subst hs
    rw [transferSuccess_audit_accounts]
    unfold mutatedAccounts
    have hfa : fa = fromAcc := by rw [hsrc] at hsrc2; exact (Option.some_injective _ hsrc2).symm
    subst hfa
    have hinner : ∀ a ∈ updateFirstBalance db.accounts
        (srcPred req.fromAccountNumber uid) (fun b => b - req.amount),
        0 ≤ a.balance := by
      refine nonneg_updateFirstBalance _ _ _ h0 ?_
      intro x hx
      rw [show db.accounts.find? (srcPred req.fromAccountNumber uid)
        = db.findOwnedAccount req.fromAccountNumber uid from rfl, hsrc] at hx
      obtain rfl := Option.some_injective _ hx
      have := not_lt.mp hfunds2
      linarith
    refine nonneg_updateFirstBalance _ _ _ hinner ?_
    intro x hx
    have hxmem := List.mem_of_find?_eq_some hx
    have := hinner x hxmem
    linarith

/-- Witness for C2: with the same accounts, a 300000-unit request from A
(balance 200000) yields the Insufficient funds error and leaves the database
untouched, while the 2000-unit request succeeds. -/
theorem transfer_insufficient_funds_witness :
    (transfer 0 1 reqBig dbMain = .error ⟨400, "Insufficient funds"⟩
      ∧ transferFinalDB 0 1 reqBig dbMain = dbMain)
    ∧ (∃ s, transfer 0 1 reqSmall dbMain = .ok s) := by
  constructor
  · exact (transfer_insufficient_funds 0 1 reqBig dbMain accA accB
      (by norm_num +decide [DB.findOwnedAccount, srcPred, dbMain, accA, accB, reqBig])
      (by norm_num [accA])
      (by norm_num +decide [DB.findAccount, dstPred, dbMain, accA, accB, reqBig])
      (by norm_num [accB])).1 (by norm_num [accA, reqBig])
  · exact (transfer_insufficient_funds 0 1 reqSmall dbMain accA accB
      (by norm_num +decide [DB.findOwnedAccount, srcPred, dbMain, accA, accB, reqSmall])
      (by norm_num [accA])
      (by norm_num +decide [DB.findAccount, dstPred, dbMain, accA, accB, reqSmall])
      (by norm_num [accB])).2.1 (by norm_num [accA, reqSmall])

/-! ### C3 -/

/-- C3: once resolution and the funds check pass, the transfer completes no
matter what verdict check_fraud returns; the verdict is recorded only in the
transaction's is_flagged and flag_reason fields, while the balance mutation
and the transaction append happen unconditionally. -/
theorem transfer_flag_and_complete (now : Int) (uid : Nat)
    (req : TransferRequest) (db : DB) (fromAcc toAcc : Account)
    (hsrc : db.findOwnedAccount req.fromAccountNumber uid = some fromAcc)
    (hsa : fromAcc.isActive = true)
    (hdst : db.findAccount req.toAccountNumber = some toAcc)
    (hda : toAcc.isActive = true)
    (hfunds : ¬ fromAcc.balance < req.amount) :
    ∃ s, transfer now uid req db = .ok s
      ∧ s.txn.isFlagged = (check_fraud now req.amount fromAcc db).1
      ∧ s.txn.flagReason = (if (check_fraud now req.amount fromAcc db).1
          then some (check_fraud now req.amount fromAcc db).2 else none)
      ∧ s.committedAudit.accounts = mutatedAccounts uid req db.accounts
      ∧ s.committedAudit.transactions = db.transactions ++ [s.txn] :=
  ⟨_, transferWithFraud_ok (check_fraud now) now uid req db hsrc hsa hdst hda hfunds,
    rfl, rfl, rfl, rfl⟩

/-- Witness for C3: the spec scenario — balance 200000, daily limit 100000,
transfer 150000: it is flagged with the daily-limit reason yet completes,
leaving the source at 50000. -/
theorem transfer_flag_and_complete_witness :
    (∃ s, transfer 0 1 reqFlag dbMain = .ok s
      ∧ s.txn.isFlagged = (check_fraud 0 reqFlag.amount accA dbMain).1
      ∧ s.txn.flagReason = (if (check_fraud 0 reqFlag.amount accA dbMain).1
          then some (check_fraud 0 reqFlag.amount accA dbMain).2 else none)
      ∧ s.committedAudit.accounts = mutatedAccounts 1 reqFlag dbMain.accounts
      ∧ s.committedAudit.transactions = dbMain.transactions ++ [s.txn])
    ∧ check_fraud 0 reqFlag.amount accA dbMain
        = (true, "Exceeds daily limit of ₹" ++ toString accA.dailyLimit)
    ∧ balOf (mutatedAccounts 1 reqFlag dbMain.accounts)
        (srcPred reqFlag.fromAccountNumber 1) = 50000 := by
  refine ⟨transfer_flag_and_complete 0 1 reqFlag dbMain accA accB
    (by norm_num +decide [DB.findOwnedAccount, srcPred, dbMain, accA, accB, reqFlag])
    (by norm_num [accA])
    (by norm_num +decide [DB.findAccount, dstPred, dbMain, accA, accB, reqFlag])
    (by norm_num [accB])
    (by norm_num [accA, reqFlag]), ?_, ?_⟩
  · norm_num +decide [check_fraud, recentLargeCount, dbMain, accA, reqFlag]
  · norm_num +decide [mutatedAccounts, updateFirstBalance, srcPred, dstPred,
      balOf, dbMain, accA, accB, reqFlag]

/-! ### C4 -/

/-- C4: the deterministic rules are evaluated in the fixed order daily-limit,
multiple-large-transactions, large-withdrawal; the first matching rule decides
the verdict and reason (short-circuit), no match yields the clean verdict, and
the check is a pure function of its inputs and the injected clock, hence
identical on repeated calls; check_fraud_ml runs its two deterministic rules
in the same order before consulting the model. -/
theorem check_fraud_rule_order (now : Int) (amount : ℚ) (account : Account)
    (db : DB) :
    check_fraud now amount account db = check_fraud now amount account db
    ∧ (account.dailyLimit < amount →
        check_fraud now amount account db
          = (true, "Exceeds daily limit of ₹" ++ toString account.dailyLimit))
    ∧ (¬ account.dailyLimit < amount →
        3 ≤ recentLargeCount db now account.id →
        check_fraud now amount account db
          = (true, "Multiple large transactions in last hour"))
    ∧ (¬ account.dailyLimit < amount →
        recentLargeCount db now account.id < 3 →
        account.balance * (4 / 5) < amount → (50000 : ℚ) < amount →
        check_fraud now amount account db
          = (true, "Large withdrawal >80% of balance"))
    ∧ (¬ account.dailyLimit < amount →
        recentLargeCount db now account.id < 3 →
        ¬ (account.balance * (4 / 5) < amount ∧ (50000 : ℚ) < amount) →
        check_fraud now amount account db = (false, ""))
    ∧ ∀ predictFn,
        (account.dailyLimit < amount →
          check_fraud_ml predictFn now amount account db
            = (true, "Exceeds daily limit of ₹" ++ toString account.dailyLimit))
        ∧ (¬ account.dailyLimit < amount →
            3 ≤ recentLargeCount db now account.id →
            check_fraud_ml predictFn now amount account db
              = (true, "Multiple large transactions in last hour")) := by
  refine ⟨rfl, ?_, ?_, ?_, ?_, ?_⟩
  · intro h1
    unfold check_fraud
    rw [if_pos h1]
  · intro h1 h2
    unfold check_fraud
    rw [if_neg h1, if_pos h2]
  · intro h1 h2 h3 h4
    unfold check_fraud
    rw [if_neg h1, if_neg (not_le.mpr h2), if_pos ⟨h3, h4⟩]
  · intro h1 h2 h3
    unfold check_fraud
    rw [if_neg h1, if_neg (not_le.mpr h2), if_neg h3]
  · intro predictFn
    refine ⟨?_, ?_⟩
    · intro h1
      unfold check_fraud_ml
      rw [if_pos h1]
    · intro h1 h2
      unfold check_fraud_ml
      rw [if_neg h1, if_pos h2]

/-- Witness for C4: on account A (daily limit 100000) with amount 150000,
rule 1 fires and decides the verdict. -/
theorem check_fraud_rule_order_witness :
    check_fraud 0 150000 accA dbMain
      = (true, "Exceeds daily limit of ₹" ++ toString accA.dailyLimit) :=
  (check_fraud_rule_order 0 150000 accA dbMain).2.1 (by norm_num [accA])

/-! ### C5 -/

/-- C5: when no deterministic rule fires and the predictor raises, the
exception is swallowed at the call boundary, check_fraud_ml returns the clean
verdict, and a transfer running this pipeline still completes with its
transaction recorded as not flagged. -/
theorem fraud_fail_open
    (predictFn : ℚ → Account → DB → Except String (Bool × String × ℚ))
    (now : Int) (uid : Nat) (req : TransferRequest) (db : DB)
    (fromAcc toAcc : Account) (e : String)
    (hsrc : db.findOwnedAccount req.fromAccountNumber uid = some fromAcc)
    (hsa : fromAcc.isActive = true)
    (hdst : db.findAccount req.toAccountNumber = some toAcc)
    (hda : toAcc.isActive = true)
    (hfunds : ¬ fromAcc.balance < req.amount)
    (hr1 : ¬ fromAcc.dailyLimit < req.amount)
    (hr2 : recentLargeCount db now fromAcc.id < 3)
    (herr : predictFn req.amount fromAcc db = .error e) :
    check_fraud_ml predictFn now req.amount fromAcc db
      = (false, "Transaction approved")
    ∧ ∃ s, transferWithFraud (check_fraud_ml predictFn now) now uid req db = .ok s
        ∧ s.txn.isFlagged = false := by
  have hml : check_fraud_ml predictFn now req.amount fromAcc db
      = (false, "Transaction approved") := by
    unfold check_fraud_ml
    rw [if_neg hr1, if_neg (not_le.mpr hr2), herr]
  refine ⟨hml, _, transferWithFraud_ok (check_fraud_ml predictFn now) now uid req db
    hsrc hsa hdst hda hfunds, ?_⟩
  rw [transferSuccess_isFlagged, hml]

/-- Witness for C5: a predictor that always raises; the 2000-unit transfer
from A to B still completes and is recorded as not flagged. -/
theorem fraud_fail_open_witness :
    check_fraud_ml (fun _ _ _ => .error "boom") 0 reqSmall.amount accA dbMain
      = (false, "Transaction approved")
    ∧ ∃ s, transferWithFraud (check_fraud_ml (fun _ _ _ => .error "boom") 0)
        0 1 reqSmall dbMain = .ok s ∧ s.txn.isFlagged = false :=
  fraud_fail_open (fun _ _ _ => .error "boom") 0 1 reqSmall dbMain accA accB "boom"
    (by norm_num +decide [DB.findOwnedAccount, srcPred, dbMain, accA, accB, reqSmall])
    (by norm_num [accA])
    (by norm_num +decide [DB.findAccount, dstPred, dbMain, accA, accB, reqSmall])
    (by norm_num [accB])
    (by norm_num [accA, reqSmall])
    (by norm_num [accA, reqSmall])
    (by norm_num [recentLargeCount, dbMain, accA])
    rfl

/-! ### C6 -/

/-- Counterexample to C6: after the first commit of the successful 2000-unit
transfer, the mutated balance and the new transaction row are already visible
while the audit table is still untouched, so the three writes are not applied
as one atomic unit. -/
theorem transfer_audit_commit_cex :
    ∃ s, transfer 0 1 reqSmall dbMain = .ok s
      ∧ s.committedMain.transactions.length = dbMain.transactions.length + 1
      ∧ balOf s.committedMain.accounts (srcPred reqSmall.fromAccountNumber 1)
          ≠ balOf dbMain.accounts (srcPred reqSmall.fromAccountNumber 1)
      ∧ s.committedMain.auditLogs = dbMain.auditLogs := by
  refine ⟨outcomeSmall, ?_, ?_, ?_, ?_⟩
  · exact transferWithFraud_ok (check_fraud 0) 0 1 reqSmall dbMain
      (by norm_num +decide [DB.findOwnedAccount, srcPred, dbMain, accA, accB, reqSmall])
      (by norm_num [accA])
      (by norm_num +decide [DB.findAccount, dstPred, dbMain, accA, accB, reqSmall])
      (by norm_num [accB])
      (by norm_num [accA, reqSmall])
  · norm_num +decide [outcomeSmall, transferSuccess, dbMain]
  · norm_num +decide [outcomeSmall, transferSuccess, mutatedAccounts,
      updateFirstBalance, srcPred, dstPred, balOf, dbMain, accA, accB, reqSmall]
  · norm_num +decide [outcomeSmall, transferSuccess, dbMain]

/-- C6 as amended: the balance mutation and the Transaction append are
committed together in the first unit of work, with the audit table unchanged
at that point; the AuditLogEntry is appended by a second, separate commit,
which adds exactly one TRANSFER entry and changes nothing else. -/
theorem transfer_commit_structure (now : Int) (uid : Nat)
    (req : TransferRequest) (db : DB) (s : TransferOutcome)
    (hok : transfer now uid req db = .ok s) :
    s.committedMain.accounts = mutatedAccounts uid req db.accounts
    ∧ s.committedMain.transactions = db.transactions ++ [s.txn]
    ∧ s.committedMain.auditLogs = db.auditLogs
    ∧ s.committedAudit.accounts = s.committedMain.accounts
    ∧ s.committedAudit.transactions = s.committedMain.transactions
    ∧ s.committedAudit.auditLogs = s.committedMain.auditLogs
        ++ [⟨uid, "TRANSFER", some ("₹" ++ toString req.amount ++ " from "
              ++ req.fromAccountNumber ++ " to " ++ req.toAccountNumber), now⟩] := by
  obtain ⟨fromAcc, toAcc, _, _, _, _, _, hs⟩ :=
    transferWithFraud_ok_inversion _ hok
  subst hs
  exact ⟨rfl, rfl, rfl, rfl, rfl, rfl⟩

/-- Witness for C6's amended statement, on the successful 2000-unit transfer. -/
theorem transfer_commit_structure_witness :
    outcomeSmall.committedMain.accounts = mutatedAccounts 1 reqSmall dbMain.accounts
    ∧ outcomeSmall.committedMain.transactions
        = dbMain.transactions ++ [outcomeSmall.txn]
    ∧ outcomeSmall.committedMain.auditLogs = dbMain.auditLogs
    ∧ outcomeSmall.committedAudit.accounts = outcomeSmall.committedMain.accounts
    ∧ outcomeSmall.committedAudit.transactions
        = outcomeSmall.committedMain.transactions
    ∧ outcomeSmall.committedAudit.auditLogs = outcomeSmall.committedMain.auditLogs
        ++ [⟨1, "TRANSFER", some ("₹" ++ toString reqSmall.amount ++ " from "
              ++ reqSmall.fromAccountNumber ++ " to " ++ reqSmall.toAccountNumber), 0⟩] :=
  transfer_commit_structure 0 1 reqSmall dbMain outcomeSmall
    (transferWithFraud_ok (check_fraud 0) 0 1 reqSmall dbMain
      (by norm_num +decide [DB.findOwnedAccount, srcPred, dbMain, accA, accB, reqSmall])
      (by norm_num [accA])
      (by norm_num +decide [DB.findAccount, dstPred, dbMain, accA, accB, reqSmall])
      (by norm_num [accB])
      (by norm_num [accA, reqSmall]))

/-! ### C7 -/

/-- Counterexample to C7: an absent source account, a source account owned by
a different user, and a deactivated source account all surface the very same
error (HTTP 404, "Source account not found or inactive") — the three failure
conditions are not distinguished to the caller. -/
theorem transfer_source_error_collapsed_cex :
    transfer 0 1 reqSmall dbAbsent
      = .error ⟨404, "Source account not found or inactive"⟩
    ∧ transfer 0 1 reqSmall dbNotOwner
      = .error ⟨404, "Source account not found or inactive"⟩
    ∧ transfer 0 1 reqSmall dbInactive
      = .error ⟨404, "Source account not found or inactive"⟩ := by
  refine ⟨?_, ?_, ?_⟩
  · exact transferWithFraud_source_none (check_fraud 0) 0 1 reqSmall dbAbsent
      (by norm_num +decide [DB.findOwnedAccount, srcPred, dbAbsent, accB, reqSmall])
  · exact transferWithFraud_source_none (check_fraud 0) 0 1 reqSmall dbNotOwner
      (by norm_num +decide [DB.findOwnedAccount, srcPred, dbNotOwner,
        accANotOwned, accA, accB, reqSmall])
  · exact transferWithFraud_source_inactive (check_fraud 0) 0 1 reqSmall dbInactive
      (show dbInactive.findOwnedAccount reqSmall.fromAccountNumber 1 = some accAInactive by
        norm_num +decide [DB.findOwnedAccount, srcPred, dbInactive,
          accAInactive, accA, accB, reqSmall])
      (by norm_num [accAInactive, accA])

/-- C7 as amended: every source-resolution failure — account number absent,
account not owned by the actor (the ownership filter makes it unresolvable),
or account deactivated — is surfaced as the single terminal error
404 "Source account not found or inactive", raised before any mutation, so
the database is unchanged. -/
theorem transfer_source_resolution_single_error (now : Int) (uid : Nat)
    (req : TransferRequest) (db : DB)
    (h : db.findOwnedAccount req.fromAccountNumber uid = none
      ∨ ∃ a, db.findOwnedAccount req.fromAccountNumber uid = some a
          ∧ a.isActive = false) :
    transfer now uid req db
      = .error ⟨404, "Source account not found or inactive"⟩
    ∧ transferFinalDB now uid req db = db := by
  rcases h with h | ⟨a, ha, hina⟩
  · have he := transferWithFraud_source_none (check_fraud now) now uid req db h
    exact ⟨he, transferFinalDB_of_error he⟩
  · have he := transferWithFraud_source_inactive (check_fraud now) now uid req db ha hina
    exact ⟨he, transferFinalDB_of_error he⟩

/-- Witness for C7's amended statement, on the database missing account A. -/
theorem transfer_source_resolution_single_error_witness :
    transfer 0 1 reqSmall dbAbsent
      = .error ⟨404, "Source account not found or inactive"⟩
    ∧ transferFinalDB 0 1 reqSmall dbAbsent = dbAbsent :=
  transfer_source_resolution_single_error 0 1 reqSmall dbAbsent
    (Or.inl (by norm_num +decide [DB.findOwnedAccount, srcPred, dbAbsent, accB, reqSmall]))

/-! ### C8 -/

/-- Counterexample to C8: on a database with no accounts, training returns
before fitting (the early return at fraud_detection.py line 84), so the first
predict call reaches the unfitted model and raises NotFittedError instead of
producing a score — the synthetic fallback is never reached. -/
theorem predict_no_accounts_cex :
    FraudDetector.predict (fun _ _ => ((0 : ℚ), false)) FraudDetector.initial
      0 1000 accFree dbEmpty = .error "NotFittedError" := rfl

/-- C8 as amended: whenever at least one account exists, lazy training always
fits a model — on the historical matrix of up to 100 stored transactions per
account, or on the fixed 100-vector synthetic batch when fewer than 10
historical rows exist — so predict produces a score for every such database
and every possible model decision; with no accounts, predict fails instead
(see the counterexample). The unused positivity hypotheses record that the
source divides by daily limits, which the schema keeps non-zero. -/
theorem predict_total_with_accounts
    (scoreFn : List (List ℚ) → List ℚ → ℚ × Bool) (now : Int) (amount : ℚ)
    (account : Account) (db : DB) (hacc : db.accounts ≠ [])
    (hdl : ∀ a ∈ db.accounts, a.dailyLimit ≠ 0)
    (hdla : account.dailyLimit ≠ 0) :
    (∃ det r, FraudDetector.predict scoreFn FraudDetector.initial now amount
        account db = .ok (det, r) ∧ det.is_trained = true)
    ∧ ((buildTrainingData db).length < 10 →
        (FraudDetector.initial.train_on_historical_data db).fitted
          = some syntheticTrainingData)
    ∧ syntheticTrainingData.length = 100
    ∧ ∀ acct : Account,
        ((db.transactions.filter
          (fun t => t.fromAccountId == some acct.id)).take 100).length ≤ 100 := by
  have hemp : db.accounts.isEmpty = false := by
    cases hl : db.accounts with
    | nil => exact absurd hl hacc
    | cons x xs => rfl
  have htrain : FraudDetector.initial.train_on_historical_data db
      = { fitted := some (if (buildTrainingData db).length < 10
            then syntheticTrainingData else buildTrainingData db),
          is_trained := true } := by
    unfold FraudDetector.train_on_historical_data
    rw [hemp]
    simp
  refine ⟨?_, ?_, rfl, ?_⟩
  · unfold FraudDetector.predict
    rw [show (if (!FraudDetector.initial.is_trained) = true
        then FraudDetector.initial.train_on_historical_data db
        else FraudDetector.initial)
      = FraudDetector.initial.train_on_historical_data db from rfl, htrain]
    exact ⟨_, _, rfl, rfl⟩
  · intro hfew
    rw [htrain, if_pos hfew]
  · intro acct
    rw [List.length_take]
    exact min_le_left _ _

/-- Witness for C8's amended statement: a single fresh account with no
transactions — fewer than 10 historical rows, so the synthetic batch is used
and predict returns a score. -/
theorem predict_total_with_accounts_witness :
    (∃ det r, FraudDetector.predict (fun _ _ => ((0 : ℚ), false))
        FraudDetector.initial 0 1000 accA dbSelf = .ok (det, r)
        ∧ det.is_trained = true)
    ∧ ((buildTrainingData dbSelf).length < 10 →
        (FraudDetector.initial.train_on_historical_data dbSelf).fitted
          = some syntheticTrainingData)
    ∧ syntheticTrainingData.length = 100
    ∧ ∀ acct : Account,
        ((dbSelf.transactions.filter
          (fun t => t.fromAccountId == some acct.id)).take 100).length ≤ 100 :=
  predict_total_with_accounts (fun _ _ => ((0 : ℚ), false)) 0 1000 accA dbSelf
    (by norm_num +decide [dbSelf])
    (by norm_num +decide [dbSelf, accA])
    (by norm_num [accA])

/-! ### C10 -/

/-- C10: with unique account numbers (the schema's unique constraint), a
transfer whose source and destination numbers coincide — on an active account
owned by the actor with balance >= amount > 0 — is accepted: the debit and the
credit hit the same row, the accounts table is left exactly as it was, the
recorded balance_after is the untouched balance, and the transaction's from
and to references are the same account. -/
theorem transfer_self_transfer (now : Int) (uid : Nat) (req : TransferRequest)
    (db : DB) (fromAcc : Account)
    (hnodup : (db.accounts.map Account.accountNumber).Nodup)
    (heq : req.toAccountNumber = req.fromAccountNumber)
    (hsrc : db.findOwnedAccount req.fromAccountNumber uid = some fromAcc)
    (hsa : fromAcc.isActive = true)
    (hfunds : ¬ fromAcc.balance < req.amount)
    (hamt : 0 < req.amount) :
    ∃ s, transfer now uid req db = .ok s
      ∧ s.txn.fromAccountId = some fromAcc.id
      ∧ s.txn.toAccountId = some fromAcc.id
      ∧ s.committedAudit.accounts = db.accounts
      ∧ s.txn.balanceAfter = some fromAcc.balance := by
  have hdst : db.findAccount req.toAccountNumber = some fromAcc := by
    rw [heq]
    exact find?_dstPred_of_srcPred _ _ _ hnodup _ hsrc
  have hcancel : mutatedAccounts uid req db.accounts = db.accounts := by
    unfold mutatedAccounts
    rw [heq]
    exact mutated_cancel _ _ _ _ hnodup _ hsrc
  refine ⟨_, transferWithFraud_ok (check_fraud now) now uid req db
    hsrc hsa hdst hsa hfunds, rfl, rfl, ?_, ?_⟩
  · rw [transferSuccess_audit_accounts, hcancel]
  · show ((mutatedAccounts uid req db.accounts).find?
      (srcPred req.fromAccountNumber uid)).map Account.balance
        = some fromAcc.balance
    rw [hcancel,
      show db.accounts.find? (srcPred req.fromAccountNumber uid)
        = db.findOwnedAccount req.fromAccountNumber uid from rfl, hsrc,
      Option.map_some']

/-- Witness for C10: user 1 transfers 50000 from account A to account A
itself; the transfer succeeds, the table is unchanged, and the transaction
references account A on both sides. -/
theorem transfer_self_transfer_witness :
    ∃ s, transfer 0 1 reqSelf dbSelf = .ok s
      ∧ s.txn.fromAccountId = some accA.id
      ∧ s.txn.toAccountId = some accA.id
      ∧ s.committedAudit.accounts = dbSelf.accounts
      ∧ s.txn.balanceAfter = some accA.balance :=
  transfer_self_transfer 0 1 reqSelf dbSelf accA
    (by norm_num +decide [dbSelf, accA])
    (by norm_num [reqSelf])
    (by norm_num +decide [DB.findOwnedAccount, srcPred, dbSelf, accA, reqSelf])
    (by norm_num [accA])
    (by norm_num [accA, reqSelf])
    (by norm_num [reqSelf])

end SmartBank
